import Mathlib

/-!
# FFToolbox — verification of the size-targeting encode core

Shallow embedding of the bitrate-budgeting / two-pass encoding core of
`fftoolbox_pro.py` (the authoritative implementation; `fftoolbox_cli.py` is an
earlier near-duplicate).  Python floats are modelled as rationals (`ℚ`); all
arithmetic in the claims under study is far from any float-rounding boundary.
Python `int(x)` truncates toward zero, modelled by `pyInt`.
-/

namespace FFToolbox

/-- Python `int(x)` on a float: truncation toward zero. -/
def pyInt (q : ℚ) : ℤ := if 0 ≤ q then ⌊q⌋ else ⌈q⌉

/-- `BITRATE_SAFETY = 0.96` (module constant of `fftoolbox_pro.py`). -/
def BITRATE_SAFETY : ℚ := 96 / 100

/-- `target_video_kbps(target_mb, duration_s, audio_kbps, safety)` from
`fftoolbox_pro.py`:
```
bits    = target_mb * 8 * 1024 * 1024 * safety
kbps_t  = bits / max(duration_s, 1) / 1000
return max(80, int(kbps_t - audio_kbps))
``` -/
def target_video_kbps (target_mb duration_s : ℚ) (audio_kbps : ℤ)
    (safety : ℚ := BITRATE_SAFETY) : ℤ :=
  let bits := target_mb * 8 * 1024 * 1024 * safety
  let kbps_t := bits / max duration_s 1 / 1000
  max 80 (pyInt (kbps_t - audio_kbps))

/-- `scale_vf(src_w, src_h, (mw, mh))` from `fftoolbox_pro.py`, with the filter
string `f"scale={nw}:{nh}:flags=lanczos"` represented by its dimension pair:
```
if src_w <= mw and src_h <= mh: return None
ratio = min(mw/src_w, mh/src_h)
nw = (int(src_w*ratio)//2)*2
nh = (int(src_h*ratio)//2)*2
```
(`src_w*ratio ≥ 0`, so Python `int` is the floor and `//` is `Nat` division). -/
def scale_vf (src_w src_h mw mh : ℕ) : Option (ℕ × ℕ) :=
  if src_w ≤ mw ∧ src_h ≤ mh then none
  else
    let ratio : ℚ := min ((mw : ℚ) / (src_w : ℚ)) ((mh : ℚ) / (src_h : ℚ))
    let nw := ((⌊(src_w : ℚ) * ratio⌋).toNat / 2) * 2
    let nh := ((⌊(src_h : ℚ) * ratio⌋).toNat / 2) * 2
    some (nw, nh)

/-- The CRF band selection of `compute_smart_preset` (`fftoolbox_pro.py`):
`bpp>0.5 → 18`, `>0.1 → 20`, `>0.04 → 22`, `>0.02 → 24`, else `26`. -/
def smart_crf (bpp : ℚ) : ℕ :=
  if bpp > 5/10 then 18
  else if bpp > 1/10 then 20
  else if bpp > 4/100 then 22
  else if bpp > 2/100 then 24
  else 26

/-- The resolution recommendation of `compute_smart_preset`:
4K at low bpp → 1080p; 1440p at moderate bpp → 1080p; 1080p at low
bitrate → 720p; else no cap. -/
def smart_res (src_w : ℕ) (src_kbps bpp : ℚ) : Option (ℕ × ℕ) :=
  if src_w ≥ 3840 ∧ bpp < 5/100 then some (1920, 1080)
  else if src_w ≥ 2560 ∧ bpp < 4/100 then some (1920, 1080)
  else if src_w ≥ 1920 ∧ src_kbps < 1500 then some (1280, 720)
  else none

/-- The analysis part of `compute_smart_preset(info)` (`fftoolbox_pro.py`): the
recommended CRF and resolution cap as a function of the probed width, height and
video bit rate (`src_bps` is the stream `bit_rate`, or the container-size
derived fallback, already resolved by the caller):
```
src_kbps = src_bps / 1000
pixels   = src_w * src_h
bpp      = src_kbps / pixels if pixels > 0 else 0
```
followed by the CRF bands and the resolution heuristic. -/
def compute_smart_preset (src_w src_h : ℕ) (src_bps : ℚ) : ℕ × Option (ℕ × ℕ) :=
  let src_kbps := src_bps / 1000
  let pixels := src_w * src_h
  let bpp := if pixels > 0 then src_kbps / (pixels : ℚ) else 0
  (smart_crf bpp, smart_res src_w src_kbps bpp)

/-- The descending tier table of `recommend_resolution_for_target`
(`fftoolbox_pro.py`): `(width, height, minimum kbps, label)`. -/
def thresholds : List (ℕ × ℕ × ℤ × String) :=
  [ (3840, 2160, 8000, "4K"),
    (2560, 1440, 4000, "1440p"),
    (1920, 1080, 1500, "1080p"),
    (1280, 720,  500,  "720p"),
    (854,  480,  200,  "480p"),
    (640,  360,  100,  "360p") ]

/-- `recommend_resolution_for_target(target_mb, duration_s, audio_kbps, src_w,
src_h)` from `fftoolbox_pro.py`, returning the recommended cap and the tier
label (the code wraps the label in an explanation sentence; only the label and
the cap carry the decision):
```
if duration_s <= 0: return None, "Cannot compute — unknown duration"
vkbps = target_video_kbps(target_mb, duration_s, audio_kbps)
for w, h, min_kbps, label in thresholds:
    if vkbps >= min_kbps and src_w >= w and src_h >= h:
        best_res   = (w, h) if (w < src_w or h < src_h) else None
        best_label = label
        break
```
with `best_res = None, best_label = "360p"` when the loop finds no match;
the first-match-and-break loop is `List.find?` over the table
(`firstQualifyingTier`). -/
def firstQualifyingTier (vkbps : ℤ) (src_w src_h : ℕ) :
    Option (ℕ × ℕ × ℤ × String) :=
  thresholds.find? (fun t => decide (t.2.2.1 ≤ vkbps ∧ t.1 ≤ src_w ∧ t.2.1 ≤ src_h))

/-- See `firstQualifyingTier` for the loop body. -/
def recommend_resolution_for_target (target_mb duration_s : ℚ) (audio_kbps : ℤ)
    (src_w src_h : ℕ) : Option (ℕ × ℕ) × String :=
  if duration_s ≤ 0 then (none, "Cannot compute — unknown duration")
  else
    let vkbps := target_video_kbps target_mb duration_s audio_kbps
    match firstQualifyingTier vkbps src_w src_h with
    | some (w, h, _, label) =>
        (if w < src_w ∨ h < src_h then some (w, h) else none, label)
    | none => (none, "360p")

/-! ## Filter-list builder (`build_vf_list`, `fftoolbox_pro.py`)

The `-vf` filter strings are represented by an inductive type; `mentionsScale`
mirrors the Python substring test `"scale=" in f` on the four strings that can
occur in the list (`"yadif=mode=1"`, `"hqdn3d=4:3:6:4.5"`,
`"scale={nw}:{nh}:flags=lanczos"`, `"scale=trunc(iw/2)*2:trunc(ih/2)*2"`). -/

/-- A member of the `-vf` filter list. -/
inductive VFilter
  /-- `"yadif=mode=1"` (deinterlace). -/
  | yadif
  /-- `"hqdn3d=4:3:6:4.5"` (denoise). -/
  | hqdn3d
  /-- `f"scale={nw}:{nh}:flags=lanczos"` from `scale_vf`. -/
  | scaleCap (nw nh : ℕ)
  /-- `"scale=trunc(iw/2)*2:trunc(ih/2)*2"` (parity correction). -/
  | scaleParity
  deriving DecidableEq

/-- `"scale=" in f` for each filter string. -/
def VFilter.mentionsScale : VFilter → Bool
  | .yadif => false
  | .hqdn3d => false
  | .scaleCap _ _ => true
  | .scaleParity => true

/-- The filter string forces the encoded frame dimensions to be even:
the parity filter by construction, a concrete scale by having even targets. -/
def VFilter.forcesEvenDims : VFilter → Bool
  | .yadif => false
  | .hqdn3d => false
  | .scaleCap nw nh => nw % 2 == 0 && nh % 2 == 0
  | .scaleParity => true

/-- The preset fields consulted by `build_vf_list`.  `src_w`/`src_h` are passed
separately; Python truthiness of `src_w and src_h` is nonzeroness. -/
structure VFPreset where
  deinterlace : Bool
  denoise : Bool
  max_res : Option (ℕ × ℕ)

/-- The first two appends of `build_vf_list`:
```
filters = []
if preset.get("_deinterlace"): filters.append("yadif=mode=1")
if preset.get("_denoise"):     filters.append("hqdn3d=4:3:6:4.5")
``` -/
def baseFilters (di dn : Bool) : List VFilter :=
  (if di then [.yadif] else []) ++ (if dn then [.hqdn3d] else [])

/-- The conditional scale append of `build_vf_list` (Python truthiness of
`max_res and src_w and src_h` is presence/nonzeroness):
```
max_res = preset.get("max_res")
if max_res and src_w and src_h:
    sf = scale_vf(src_w, src_h, max_res)
    if sf: filters.append(sf)
``` -/
def capFilters (max_res : Option (ℕ × ℕ)) (src_w src_h : ℕ) : List VFilter :=
  match max_res with
  | some (mw, mh) =>
      if src_w ≠ 0 ∧ src_h ≠ 0 then
        match scale_vf src_w src_h mw mh with
        | some (nw, nh) => [.scaleCap nw nh]
        | none => []
      else []
  | none => []

/-- `build_vf_list(preset, src_w, src_h)` from `fftoolbox_pro.py` — the two
conditional head filters, the conditional scale filter, and the final
parity-correction append:
```
if not any("scale=" in f for f in filters):
    filters.append("scale=trunc(iw/2)*2:trunc(ih/2)*2")
return filters
``` -/
def build_vf_list (preset : VFPreset) (src_w src_h : ℕ) : List VFilter :=
  if (baseFilters preset.deinterlace preset.denoise ++
      capFilters preset.max_res src_w src_h).any (·.mentionsScale) then
    baseFilters preset.deinterlace preset.denoise ++
      capFilters preset.max_res src_w src_h
  else
    (baseFilters preset.deinterlace preset.denoise ++
      capFilters preset.max_res src_w src_h) ++ [.scaleParity]

/-! ## Two-pass / verification controller (`encode_file`, `fftoolbox_pro.py`)

`encode_file` is modelled from the `# Copy` comment onward, after the
hardware-encoder fallback and percent-target resolution have rewritten the
preset (both only rewrite preset fields).  Each `run_with_progress` call — one
encoder subprocess invocation — is an event whose outcome is drawn from a
script: exit 0 (`ok`), nonzero exit or missing binary (`fail`, the function
returns `False`), or an exception escaping the invocation (`exn`, which
propagates out of `encode_file`).  Filesystem facts (`os.path.exists`,
`os.path.getsize`) are also drawn from the script. -/

/-- Outcome of one `run_with_progress` encoder invocation. -/
inductive RunOutcome
  | ok
  | fail
  | exn
  deriving DecidableEq

/-- Environment script: outcomes of the (at most four) encoder invocations of
one size-targeted job, and the state of the output file after the first
attempt. -/
structure EncodeScript where
  firstPass1 : RunOutcome
  firstPass2 : RunOutcome
  outputExists : Bool
  actualMb : ℚ
  retryPass1 : RunOutcome
  retryPass2 : RunOutcome

/-- Observable steps of `encode_file`.  Temporary statistics directories are
numbered in creation order (`mkdtemp` returns a fresh unique path each time). -/
inductive Event
  /-- `tempfile.mkdtemp(prefix="fftoolbox_")`. -/
  | mkTempDir (id : ℕ)
  /-- `run_with_progress` on a `build_cmd(..., vkbps, pass_num, passlog)`
  two-pass command. -/
  | runPass (passNum : ℕ) (vkbps : ℤ) (statsDir : ℕ)
  /-- `run_with_progress` on a single-pass (CRF or remux) command. -/
  | runSingle
  /-- `os.path.getsize(output_path)` compared against the user target. -/
  | verifySize (actualMb userTarget : ℚ)
  /-- `shutil.rmtree(tmpdir)`. -/
  | removeTempDir (id : ℕ)
  deriving DecidableEq

/-- The preset fields consulted by the modelled tail of `encode_file`. -/
structure EncPreset where
  codec : Option String
  target_mb : Option ℚ
  audio_kbps : Option ℤ

/-- `akbps = preset.get("audio_kbps") or 128`: a missing or zero (falsy) audio
bitrate is replaced by 128. -/
def akbps_of (preset : EncPreset) : ℤ :=
  match preset.audio_kbps with
  | some a => if a = 0 then 128 else a
  | none => 128

/-- `encode_file` from the `# Copy` comment onward (`fftoolbox_pro.py`),
returning the trace of events and `some ok` (the Python return value), or
`none` when an exception escapes an encoder invocation — in which case the
trace stops at the point the exception was raised:
```
if preset.get("codec") == "copy":
    return run_with_progress(build_cmd(...), ...)
if preset.get("target_mb") and duration > 0:
    akbps   = preset.get("audio_kbps") or 128
    vkbps   = target_video_kbps(preset["target_mb"], duration, akbps, BITRATE_SAFETY)
    tmpdir  = tempfile.mkdtemp(...)
    ok = run_with_progress(cmd1, ...)
    if ok:
        ok = run_with_progress(cmd2, ...)
    try: shutil.rmtree(tmpdir)
    except: pass
    if ok and os.path.exists(output_path):
        actual_mb = os.path.getsize(output_path) / 1024 / 1024
        if actual_mb > user_target:
            vkbps2   = target_video_kbps(user_target, duration, akbps, 0.90)
            tmpdir2  = tempfile.mkdtemp(...)
            ok2   = run_with_progress(cmd1r, ...)
            if ok2:
                run_with_progress(cmd2r, ...)
            try: shutil.rmtree(tmpdir2)
            except: pass
    return ok
return run_with_progress(build_cmd(...), ...)
```
Note the Python truthiness guards: `preset.get("target_mb")` is falsy for a
missing or zero target, `preset.get("audio_kbps") or 128` replaces a missing
or zero audio bitrate by 128. -/
def encode_file (preset : EncPreset) (duration : ℚ) (s : EncodeScript) :
    List Event × Option Bool :=
  if preset.codec = some "copy" then
    ([.runSingle], some (s.firstPass1 = .ok))
  else
    match preset.target_mb with
    | some target_mb =>
      if target_mb ≠ 0 ∧ duration > 0 then
        let akbps := akbps_of preset
        let vkbps := target_video_kbps target_mb duration akbps BITRATE_SAFETY
        let head : List Event := [.mkTempDir 0, .runPass 1 vkbps 0]
        match s.firstPass1 with
        | .exn => (head, none)
        | .fail => (head ++ [.removeTempDir 0], some false)
        | .ok =>
          let head := head ++ [Event.runPass 2 vkbps 0]
          match s.firstPass2 with
          | .exn => (head, none)
          | .fail => (head ++ [.removeTempDir 0], some false)
          | .ok =>
            let head := head ++ [Event.removeTempDir 0]
            if s.outputExists then
              let head := head ++ [Event.verifySize s.actualMb target_mb]
              if s.actualMb > target_mb then
                let vkbps2 := target_video_kbps target_mb duration akbps (90/100)
                let head := head ++ [Event.mkTempDir 1, Event.runPass 1 vkbps2 1]
                match s.retryPass1 with
                | .exn => (head, none)
                | .fail => (head ++ [.removeTempDir 1], some true)
                | .ok =>
                  let head := head ++ [Event.runPass 2 vkbps2 1]
                  match s.retryPass2 with
                  | .exn => (head, none)
                  | _ => (head ++ [.removeTempDir 1], some true)
              else (head, some true)
            else (head, some true)
      else ([.runSingle], some (s.firstPass1 = .ok))
    | none => ([.runSingle], some (s.firstPass1 = .ok))

/-! ## Progress tracker (`run_with_progress` line loop, `fftoolbox_pro.py`)

One iteration of the stderr line loop, abstracted over the two regex
extractions: `parse_progress_time(line)` (the `time=H:MM:SS.ss` token, `None`
when absent) and the `speed=N.Nx` match.  Both extractions always yield
nonnegative values. -/

/-- The extraction results for one stderr line. -/
structure StatusLine where
  /-- `parse_progress_time(line)`: seconds, or `none` when no `time=` token. -/
  time : Option ℚ
  /-- The `speed=\s*([\d.]+)x` match, or `none`. -/
  speed : Option ℚ

/-- The progress-bar update emitted for one line. -/
structure ProgressUpdate where
  /-- `completed` (a percentage on a 0–100 scale). -/
  completed : ℚ
  /-- `spd` (0.0 when no speed token matched). -/
  speedVal : ℚ
  /-- `rem`, the estimated seconds remaining (0 when speed ≤ 0.01). -/
  remaining : ℚ
  deriving DecidableEq

/-- One iteration of the line loop of `run_with_progress`:
```
t = parse_progress_time(line)
if t and duration_s > 0:
    pct  = min(99.9, t/duration_s*100)
    spd  = float(sm.group(1)) if sm else 0.0
    rem  = (duration_s-t)/spd if spd > 0.01 else 0
    prog.update(task, completed=pct, speed=sp_s, eta=eta)
```
`none` when the guard rejects the line (no update is emitted).  Note the
Python truthiness test `if t`: a parsed timestamp of `0.0` is falsy, so it is
treated exactly like an absent timestamp. -/
def progress_line_update (duration_s : ℚ) (line : StatusLine) :
    Option ProgressUpdate :=
  match line.time with
  | none => none
  | some t =>
    if t ≠ 0 ∧ duration_s > 0 then
      let pct := min (999/10) (t / duration_s * 100)
      let spd := match line.speed with
        | some v => v
        | none => 0
      let rem := if spd > 1/100 then (duration_s - t) / spd else 0
      some ⟨pct, spd, rem⟩
    else none

/-- The event is a size-verification step (`os.path.getsize` compared to the
user target). -/
def Event.isVerify : Event → Bool
  | .verifySize _ _ => true
  | _ => false

/-- The event is an encoder subprocess invocation (`run_with_progress`). -/
def Event.isEncoderRun : Event → Bool
  | .runPass _ _ _ => true
  | .runSingle => true
  | _ => false

end FFToolbox

namespace FFToolbox

/-! ## Helper lemmas -/

theorem mem_baseFilters {di dn : Bool} {f : VFilter} (h : f ∈ baseFilters di dn) :
    f = .yadif ∨ f = .hqdn3d := by
  cases di <;> cases dn <;> simp_all [baseFilters]

theorem baseFilters_no_scale (di dn : Bool) :
    (baseFilters di dn).any (·.mentionsScale) = false := by
  cases di <;> cases dn <;> simp [baseFilters, VFilter.mentionsScale]

theorem scaleParity_not_mem_baseFilters (di dn : Bool) :
    VFilter.scaleParity ∉ baseFilters di dn := by
  intro h
  rcases mem_baseFilters h with h' | h' <;> exact VFilter.noConfusion h'

theorem scaleCap_not_mem_baseFilters (di dn : Bool) (nw nh : ℕ) :
    VFilter.scaleCap nw nh ∉ baseFilters di dn := by
  intro h
  rcases mem_baseFilters h with h' | h' <;> exact VFilter.noConfusion h'

/-- When the source exceeds the cap, `scale_vf` produces a pair, and both of
its dimensions are even. -/
theorem scale_vf_eq_some (src_w src_h mw mh : ℕ) (hex : mw < src_w ∨ mh < src_h) :
    ∃ nw nh, scale_vf src_w src_h mw mh = some (nw, nh) ∧
      nw % 2 = 0 ∧ nh % 2 = 0 := by
  have hcond : ¬(src_w ≤ mw ∧ src_h ≤ mh) := by
    rcases hex with h | h
    · exact fun hc => absurd hc.1 (not_le.mpr h)
    · exact fun hc => absurd hc.2 (not_le.mpr h)
  rw [scale_vf, if_neg hcond]
  exact ⟨_, _, rfl, Nat.mul_mod_left _ 2, Nat.mul_mod_left _ 2⟩

/-- `scale_vf` only produces a pair when the source exceeds the cap. -/
theorem scale_vf_exceeds_of_some {src_w src_h mw mh nw nh : ℕ}
    (h : scale_vf src_w src_h mw mh = some (nw, nh)) :
    mw < src_w ∨ mh < src_h := by
  by_contra hc
  push_neg at hc
  rw [scale_vf, if_pos hc] at h
  exact Option.noConfusion h

/-! ## Claims -/

/-- **C2** (counterexample).  The claim asserts that the bitrate estimator at
`targetMegabytes = 100`, `durationSeconds = 600`, `audioKbps = 96`,
`safetyMargin = 0.96` returns 1278, and that
`floor(100·8·1024·1024·0.96/600/1000) − 96 = 1278`.  Both are false: the
budget is `100·8·1024·1024·0.96 = 805306368` bits, so the quotient is
`1342.17728`, not the `1374.4` the spec's scenario A computed, and the result
is `1342 − 96 = 1246`. -/
theorem c2_scenario_a_counterexample :
    target_video_kbps 100 600 96 (96/100) ≠ 1278 ∧
    (⌊(100 * 8 * 1024 * 1024 * (96/100) : ℚ) / 600 / 1000⌋ - 96 : ℤ) ≠ 1278 := by
  constructor <;> norm_num [target_video_kbps, pyInt]

/-- **C2** (amended).  The bitrate estimator applied to
`targetMegabytes = 100`, `durationSeconds = 600`, `audioKbps = 96`,
`safetyMargin = 0.96` returns exactly 1246 kbps, and that value equals
`max 80 (floor(targetMegabytes·8·1024·1024·safetyMargin/durationSeconds/1000)
− audioKbps)` for these inputs. -/
theorem c2_scenario_a :
    target_video_kbps 100 600 96 (96/100) = 1246 ∧
    (1246 : ℤ) =
      max 80 (⌊(100 * 8 * 1024 * 1024 * (96/100) : ℚ) / 600 / 1000⌋ - 96) := by
  constructor <;> norm_num [target_video_kbps, pyInt]

/-- **C10** (confirmed).  The estimator clamps the duration from below to 1
second: for every `duration_s ≤ 1` (including 0 and negative values) it
returns `max 80 (int(target_mb·8·1024·1024·safety/1000 − audio_kbps))` — a
defined numeric result, never an error or sentinel. -/
theorem c10_duration_clamped (target_mb duration_s : ℚ) (audio_kbps : ℤ)
    (safety : ℚ) (h : duration_s ≤ 1) :
    target_video_kbps target_mb duration_s audio_kbps safety =
      max 80 (pyInt (target_mb * 8 * 1024 * 1024 * safety / 1000 - audio_kbps)) := by
  unfold target_video_kbps
  rw [max_eq_right h]
  simp only [div_one]

/-- Witness for `c10_duration_clamped` at `duration_s = 0`. -/
theorem c10_duration_clamped_witness :
    (0 : ℚ) ≤ 1 ∧
    target_video_kbps 100 0 96 (96/100) =
      max 80 (pyInt ((100 : ℚ) * 8 * 1024 * 1024 * (96/100) / 1000 - 96)) :=
  ⟨by decide, c10_duration_clamped 100 0 96 (96/100) (by decide)⟩

/-- **C5** (counterexample).  For a 3840×2160 source whose bits-per-pixel
equals exactly 0.03 (stream bitrate 248832000 bps: `248832000/1000/(3840·2160)
= 0.03`), the smart analyzer does **not** recommend quality factor 22: 0.03 is
not above the `> 0.04` band boundary. -/
theorem c5_scenario_d_counterexample :
    (248832000 : ℚ) / 1000 / ((3840 * 2160 : ℕ) : ℚ) = 3/100 ∧
    compute_smart_preset 3840 2160 248832000 ≠ (22, some (1920, 1080)) := by
  constructor <;> norm_num [compute_smart_preset, smart_crf, smart_res]

/-- **C5** (amended).  For a 3840×2160 source with bpp exactly 0.03, the smart
analyzer recommends quality factor **24** (0.03 falls in the `> 0.02` band, not
the `> 0.04` one) together with the claimed 1920×1080 resolution cap. -/
theorem c5_scenario_d :
    compute_smart_preset 3840 2160 248832000 = (24, some (1920, 1080)) := by
  norm_num [compute_smart_preset, smart_crf, smart_res]

/-- **C6** (confirmed).  For all source dimensions ≥ 1 and every cap the
source exceeds, `scale_vf` produces dimensions
`newW = floor(srcW·ratio/2)·2`, `newH = floor(srcH·ratio/2)·2` with
`ratio = min(capW/srcW, capH/srcH)` that are both even and bounded by the
cap: `newW ≤ capW`, `newH ≤ capH`. -/
theorem c6_scale_vf_even_and_capped (src_w src_h mw mh : ℕ)
    (hw : 1 ≤ src_w) (hh : 1 ≤ src_h) (hex : mw < src_w ∨ mh < src_h) :
    ∃ nw nh, scale_vf src_w src_h mw mh = some (nw, nh) ∧
      nw % 2 = 0 ∧ nh % 2 = 0 ∧ nw ≤ mw ∧ nh ≤ mh := by
  have hcond : ¬(src_w ≤ mw ∧ src_h ≤ mh) := by
    rcases hex with h | h
    · exact fun hc => absurd hc.1 (not_le.mpr h)
    · exact fun hc => absurd hc.2 (not_le.mpr h)
  have hw0 : (0 : ℚ) < (src_w : ℚ) := by exact_mod_cast hw
  have hh0 : (0 : ℚ) < (src_h : ℚ) := by exact_mod_cast hh
  have hwbound : (src_w : ℚ) * min ((mw : ℚ) / src_w) ((mh : ℚ) / src_h) ≤ (mw : ℚ) := by
    calc (src_w : ℚ) * min ((mw : ℚ) / src_w) ((mh : ℚ) / src_h)
        ≤ (src_w : ℚ) * ((mw : ℚ) / src_w) :=
          mul_le_mul_of_nonneg_left (min_le_left _ _) (Nat.cast_nonneg _)
      _ = (mw : ℚ) := mul_div_cancel₀ _ (ne_of_gt hw0)
  have hhbound : (src_h : ℚ) * min ((mw : ℚ) / src_w) ((mh : ℚ) / src_h) ≤ (mh : ℚ) := by
    calc (src_h : ℚ) * min ((mw : ℚ) / src_w) ((mh : ℚ) / src_h)
        ≤ (src_h : ℚ) * ((mh : ℚ) / src_h) :=
          mul_le_mul_of_nonneg_left (min_le_right _ _) (Nat.cast_nonneg _)
      _ = (mh : ℚ) := mul_div_cancel₀ _ (ne_of_gt hh0)
  have hfw : (⌊(src_w : ℚ) * min ((mw : ℚ) / src_w) ((mh : ℚ) / src_h)⌋).toNat ≤ mw := by
    refine Int.toNat_le.mpr ?_
    calc ⌊(src_w : ℚ) * min ((mw : ℚ) / src_w) ((mh : ℚ) / src_h)⌋
        ≤ ⌊(mw : ℚ)⌋ := Int.floor_le_floor hwbound
      _ = (mw : ℤ) := Int.floor_natCast mw
  have hfh : (⌊(src_h : ℚ) * min ((mw : ℚ) / src_w) ((mh : ℚ) / src_h)⌋).toNat ≤ mh := by
    refine Int.toNat_le.mpr ?_
    calc ⌊(src_h : ℚ) * min ((mw : ℚ) / src_w) ((mh : ℚ) / src_h)⌋
        ≤ ⌊(mh : ℚ)⌋ := Int.floor_le_floor hhbound
      _ = (mh : ℤ) := Int.floor_natCast mh
  rw [scale_vf, if_neg hcond]
  refine ⟨_, _, rfl, Nat.mul_mod_left _ 2, Nat.mul_mod_left _ 2, ?_, ?_⟩
  · exact le_trans (Nat.div_mul_le_self _ 2) hfw
  · exact le_trans (Nat.div_mul_le_self _ 2) hfh

/-- Witness for `c6_scale_vf_even_and_capped`: a 1920×1080 source against a
1280×720 cap. -/
theorem c6_scale_vf_even_and_capped_witness :
    (1 ≤ 1920 ∧ 1 ≤ 1080 ∧ (1280 < 1920 ∨ 720 < 1080)) ∧
    ∃ nw nh, scale_vf 1920 1080 1280 720 = some (nw, nh) ∧
      nw % 2 = 0 ∧ nh % 2 = 0 ∧ nw ≤ 1280 ∧ nh ≤ 720 :=
  ⟨⟨by decide, by decide, by decide⟩,
    c6_scale_vf_even_and_capped 1920 1080 1280 720 (by decide) (by decide)
      (by decide)⟩

/-- **C7** (confirmed).  For every preset and source dimensions, the filter
list contains a cap-scale filter exactly when a resolution cap applies (cap
present, dimensions known/nonzero) and the source exceeds it — never an
upscale; the parity-correction filter is appended exactly when no cap-scale
filter was added; and every produced filter list contains a filter that
forces even output dimensions. -/
theorem c7_filter_list_even_dims (preset : VFPreset) (src_w src_h : ℕ) :
    ((∃ nw nh, VFilter.scaleCap nw nh ∈ build_vf_list preset src_w src_h) ↔
      (∃ mw mh, preset.max_res = some (mw, mh) ∧ src_w ≠ 0 ∧ src_h ≠ 0 ∧
        (mw < src_w ∨ mh < src_h))) ∧
    (VFilter.scaleParity ∈ build_vf_list preset src_w src_h ↔
      ¬∃ nw nh, VFilter.scaleCap nw nh ∈ build_vf_list preset src_w src_h) ∧
    (∃ f ∈ build_vf_list preset src_w src_h, f.forcesEvenDims = true) := by
  by_cases hscen : ∃ mw mh, preset.max_res = some (mw, mh) ∧ src_w ≠ 0 ∧
      src_h ≠ 0 ∧ (mw < src_w ∨ mh < src_h)
  · obtain ⟨mw, mh, hmr, hw, hh, hex⟩ := hscen
    obtain ⟨nw, nh, hs, hnw, hnh⟩ := scale_vf_eq_some src_w src_h mw mh hex
    have hcap : capFilters preset.max_res src_w src_h = [.scaleCap nw nh] := by
      rw [hmr]
      simp only [capFilters, hs, if_pos (show src_w ≠ 0 ∧ src_h ≠ 0 from ⟨hw, hh⟩)]
    have hany : (baseFilters preset.deinterlace preset.denoise ++
        [VFilter.scaleCap nw nh]).any (·.mentionsScale) = true := by
      simp [List.any_append, VFilter.mentionsScale]
    have hbuild : build_vf_list preset src_w src_h =
        baseFilters preset.deinterlace preset.denoise ++ [.scaleCap nw nh] := by
      rw [build_vf_list, hcap, if_pos hany]
    rw [hbuild]
    refine ⟨iff_of_true ⟨nw, nh, ?_⟩ ⟨mw, mh, hmr, hw, hh, hex⟩,
      iff_of_false ?_ (not_not_intro ⟨nw, nh, ?_⟩), ⟨.scaleCap nw nh, ?_, ?_⟩⟩
    · exact List.mem_append_right _ (List.mem_singleton_self _)
    · intro hmem
      rcases List.mem_append.mp hmem with hmem | hmem
      · exact scaleParity_not_mem_baseFilters _ _ hmem
      · simp at hmem
    · exact List.mem_append_right _ (List.mem_singleton_self _)
    · exact List.mem_append_right _ (List.mem_singleton_self _)
    · simp [VFilter.forcesEvenDims, hnw, hnh]
  · have hcap : capFilters preset.max_res src_w src_h = [] := by
      rcases hmr : preset.max_res with _ | ⟨mw, mh⟩
      · simp [capFilters]
      · by_cases hwh : src_w ≠ 0 ∧ src_h ≠ 0
        · rcases hs : scale_vf src_w src_h mw mh with _ | ⟨nw, nh⟩
          · simp [capFilters, hwh, hs]
          · exact absurd ⟨mw, mh, hmr, hwh.1, hwh.2, scale_vf_exceeds_of_some hs⟩
              hscen
        · simp [capFilters, hwh]
    have hany : (baseFilters preset.deinterlace preset.denoise ++
        ([] : List VFilter)).any (·.mentionsScale) = false := by
      simp [List.any_append, baseFilters_no_scale]
    have hbuild : build_vf_list preset src_w src_h =
        baseFilters preset.deinterlace preset.denoise ++ [.scaleParity] := by
      rw [build_vf_list, hcap,
        if_neg (fun hcontra => Bool.false_ne_true (hany ▸ hcontra))]
      simp
    rw [hbuild]
    have hnocap : ¬∃ nw nh, VFilter.scaleCap nw nh ∈
        baseFilters preset.deinterlace preset.denoise ++ [VFilter.scaleParity] := by
      rintro ⟨nw, nh, hmem⟩
      rcases List.mem_append.mp hmem with hmem | hmem
      · exact scaleCap_not_mem_baseFilters _ _ _ _ hmem
      · simp at hmem
    refine ⟨iff_of_false hnocap hscen, iff_of_true ?_ hnocap,
      ⟨.scaleParity, ?_, rfl⟩⟩
    · exact List.mem_append_right _ (List.mem_singleton_self _)
    · exact List.mem_append_right _ (List.mem_singleton_self _)

/-- A found tier satisfies the loop condition: minimum kbps at or below the
achievable bitrate and resolution not exceeding the source. -/
theorem firstQualifyingTier_qualifies {vkbps : ℤ} {src_w src_h w h : ℕ}
    {mk : ℤ} {label : String}
    (hfound : firstQualifyingTier vkbps src_w src_h = some (w, h, mk, label)) :
    mk ≤ vkbps ∧ w ≤ src_w ∧ h ≤ src_h := by
  rw [firstQualifyingTier] at hfound
  have hq := List.find?_some hfound
  simpa using hq

/-- When the duration is positive, `recommend_resolution_for_target` is the
first-qualifying-tier computation. -/
theorem recommend_eq_of_pos (target_mb duration_s : ℚ) (audio_kbps : ℤ)
    (src_w src_h : ℕ) (hd : 0 < duration_s) :
    recommend_resolution_for_target target_mb duration_s audio_kbps src_w src_h =
      match firstQualifyingTier (target_video_kbps target_mb duration_s audio_kbps)
          src_w src_h with
      | some (w, h, _, label) =>
          (if w < src_w ∨ h < src_h then some (w, h) else none, label)
      | none => (none, "360p") := by
  rw [recommend_resolution_for_target, if_neg (not_le.mpr hd)]

/-- When the first-qualifying-tier search finds a tier, the recommendation is
that tier's downscale decision and label. -/
theorem recommend_eq_found (target_mb duration_s : ℚ) (audio_kbps : ℤ)
    (src_w src_h w h : ℕ) (mk : ℤ) (label : String) (hd : 0 < duration_s)
    (hfound : firstQualifyingTier (target_video_kbps target_mb duration_s
        audio_kbps) src_w src_h = some (w, h, mk, label)) :
    recommend_resolution_for_target target_mb duration_s audio_kbps src_w src_h =
      (if w < src_w ∨ h < src_h then some (w, h) else none, label) := by
  rw [recommend_eq_of_pos target_mb duration_s audio_kbps src_w src_h hd, hfound]

/-- When no tier qualifies, the recommendation is no cap with label `"360p"`. -/
theorem recommend_eq_notfound (target_mb duration_s : ℚ) (audio_kbps : ℤ)
    (src_w src_h : ℕ) (hd : 0 < duration_s)
    (hfound : firstQualifyingTier (target_video_kbps target_mb duration_s
        audio_kbps) src_w src_h = none) :
    recommend_resolution_for_target target_mb duration_s audio_kbps src_w src_h =
      (none, "360p") := by
  rw [recommend_eq_of_pos target_mb duration_s audio_kbps src_w src_h hd, hfound]

/-- **C8** (counterexample).  With a 1 MB target over 90 s and audio 0, the
achievable bitrate is `floor(1·8·1024·1024·0.96/90/1000) = 89` kbps, below
every tier's minimum of the table, so no tier qualifies; the code then
returns cap `None` with label `"360p"` although the lowest tier 640×360 does
not equal or exceed the 1920×1080 source — refuting "the returned cap is
None exactly when the recommended tier equals or exceeds the source
resolution". -/
theorem c8_none_cap_counterexample :
    (recommend_resolution_for_target 1 90 0 1920 1080).1 = none ∧
    (recommend_resolution_for_target 1 90 0 1920 1080).2 = "360p" ∧
    ¬(1920 ≤ 640 ∧ 1080 ≤ 360) := by
  have hv : target_video_kbps 1 90 0 = 89 := by
    norm_num [target_video_kbps, pyInt, BITRATE_SAFETY]
  have hfound : firstQualifyingTier (target_video_kbps 1 90 0) 1920 1080 = none := by
    rw [hv]
    decide
  have hr : recommend_resolution_for_target 1 90 0 1920 1080 = (none, "360p") :=
    recommend_eq_notfound 1 90 0 1920 1080 (by norm_num) hfound
  rw [hr]
  exact ⟨rfl, rfl, by decide⟩

/-- **C8** (amended).  For every positive duration: the returned label is the
first tier of the descending table whose minimum kbps is at or below the
achievable video bitrate and whose resolution does not exceed the source (or
the lowest tier's label `"360p"` when no tier qualifies); a returned cap is
always that first qualifying tier and is strictly below the source in at
least one dimension; and the cap is `None` exactly when the first qualifying
tier — if any — equals or exceeds the source resolution (in particular the
cap is also `None` when no tier qualifies, even if the source is larger than
the lowest tier). -/
theorem c8_first_qualifying_tier (target_mb duration_s : ℚ) (audio_kbps : ℤ)
    (src_w src_h : ℕ) (hd : 0 < duration_s) :
    ((recommend_resolution_for_target target_mb duration_s audio_kbps src_w src_h).2 =
      ((firstQualifyingTier (target_video_kbps target_mb duration_s audio_kbps)
          src_w src_h).map (fun tier => tier.2.2.2)).getD "360p") ∧
    (∀ w h, (recommend_resolution_for_target target_mb duration_s audio_kbps
        src_w src_h).1 = some (w, h) →
      (∃ mk label, firstQualifyingTier (target_video_kbps target_mb duration_s
          audio_kbps) src_w src_h = some (w, h, mk, label)) ∧
      w ≤ src_w ∧ h ≤ src_h ∧ (w < src_w ∨ h < src_h)) ∧
    ((recommend_resolution_for_target target_mb duration_s audio_kbps
        src_w src_h).1 = none ↔
      ∀ w h mk label, firstQualifyingTier (target_video_kbps target_mb duration_s
          audio_kbps) src_w src_h = some (w, h, mk, label) →
        src_w ≤ w ∧ src_h ≤ h) := by
  cases hfound : firstQualifyingTier (target_video_kbps target_mb duration_s
      audio_kbps) src_w src_h with
  | none =>
      rw [recommend_eq_notfound target_mb duration_s audio_kbps src_w src_h hd
        hfound]
      refine ⟨rfl, ?_, iff_of_true rfl ?_⟩
      · intro w h hx
        exact Option.noConfusion hx
      · intro w h mk label hx
        exact Option.noConfusion hx
  | some tier =>
      obtain ⟨w, h, mk, label⟩ := tier
      have hq := firstQualifyingTier_qualifies hfound
      rw [recommend_eq_found target_mb duration_s audio_kbps src_w src_h w h mk
        label hd hfound]
      by_cases hlt : w < src_w ∨ h < src_h
      · rw [if_pos hlt]
        refine ⟨rfl, ?_, iff_of_false (by simp) ?_⟩
        · intro w' h' hx
          simp only [Option.some.injEq, Prod.mk.injEq] at hx
          obtain ⟨rfl, rfl⟩ := hx
          exact ⟨⟨mk, label, rfl⟩, hq.2.1, hq.2.2, hlt⟩
        · intro hall
          have hb := hall w h mk label rfl
          rcases hlt with hlt | hlt
          · exact absurd hb.1 (not_le.mpr hlt)
          · exact absurd hb.2 (not_le.mpr hlt)
      · rw [if_neg hlt]
        push_neg at hlt
        refine ⟨rfl, ?_, iff_of_true rfl ?_⟩
        · intro w' h' hx
          exact Option.noConfusion hx
        · intro w' h' mk' label' hx
          simp only [Option.some.injEq, Prod.mk.injEq] at hx
          obtain ⟨rfl, rfl, _, _⟩ := hx
          exact ⟨hlt.1, hlt.2⟩

/-- Witness for `c8_first_qualifying_tier` at a 100 MB target, 600 s,
96 kbps audio, 1920×1080 source. -/
theorem c8_first_qualifying_tier_witness :
    (0 : ℚ) < 600 ∧
    (((recommend_resolution_for_target 100 600 96 1920 1080).2 =
      ((firstQualifyingTier (target_video_kbps 100 600 96) 1920 1080).map
          (fun tier => tier.2.2.2)).getD "360p") ∧
    (∀ w h, (recommend_resolution_for_target 100 600 96 1920 1080).1 =
        some (w, h) →
      (∃ mk label, firstQualifyingTier (target_video_kbps 100 600 96) 1920 1080
          = some (w, h, mk, label)) ∧
      w ≤ 1920 ∧ h ≤ 1080 ∧ (w < 1920 ∨ h < 1080)) ∧
    ((recommend_resolution_for_target 100 600 96 1920 1080).1 = none ↔
      ∀ w h mk label, firstQualifyingTier (target_video_kbps 100 600 96) 1920
          1080 = some (w, h, mk, label) → 1920 ≤ w ∧ 1080 ≤ h)) :=
  ⟨by decide, c8_first_qualifying_tier 100 600 96 1920 1080 (by decide)⟩

/-- **C9** (counterexample).  A status line carrying the timestamp `0.0`
(e.g. `time=0:00:00.0 speed=1.0x`) with a known positive duration: a
timestamp **is** extracted, yet the tracker emits nothing, because the Python
truthiness guard `if t and duration_s > 0` treats `t = 0.0` as falsy —
refuting "for every status line from which a timestamp t is extracted …
emits fractionComplete". -/
theorem c9_zero_timestamp_counterexample :
    (0 : ℚ) < 10 ∧ progress_line_update 10 ⟨some 0, some 1⟩ = none := by
  constructor
  · decide
  · rfl

/-- **C9** (amended).  For every status line whose extracted timestamp `t` is
**nonzero**, when the total duration is known and positive the tracker emits
an update whose completed percentage is `min(99.9, t/duration·100)` — i.e.
whose fraction is `min(0.999, t/duration)` — and, when a speed multiplier
`s > 0.01` is also extracted, whose estimated seconds remaining is
`(duration − t)/s`. -/
theorem c9_progress_emission (duration_s t : ℚ) (line : StatusLine)
    (htime : line.time = some t) (ht : t ≠ 0) (hd : 0 < duration_s) :
    ∃ u, progress_line_update duration_s line = some u ∧
      u.completed = min (999/10) (t / duration_s * 100) ∧
      u.completed / 100 = min (999/1000) (t / duration_s) ∧
      ∀ s, line.speed = some s → 1/100 < s →
        u.remaining = (duration_s - t) / s := by
  rw [progress_line_update, htime]
  dsimp only
  rw [if_pos ⟨ht, hd⟩]
  refine ⟨_, rfl, rfl, ?_, ?_⟩
  · show min (999/10) (t / duration_s * 100) / 100 = min (999/1000) (t / duration_s)
    rw [← min_div_div_right (by norm_num : (0:ℚ) ≤ 100)]
    congr 1
    · norm_num
    · exact mul_div_cancel_right₀ _ (by norm_num)
  · intro s hs hgt
    show (if (match line.speed with | some v => v | none => (0:ℚ)) > (1/100 : ℚ) then
        (duration_s - t) / (match line.speed with | some v => v | none => (0:ℚ))
      else (0:ℚ)) = (duration_s - t) / s
    rw [hs]
    exact if_pos hgt

/-- Witness for `c9_progress_emission`: duration 10 s, timestamp 4 s, speed
2×. -/
theorem c9_progress_emission_witness :
    ((4 : ℚ) ≠ 0 ∧ (0 : ℚ) < 10) ∧
    ∃ u, progress_line_update 10 ⟨some 4, some 2⟩ = some u ∧
      u.completed = min (999/10) ((4 : ℚ) / 10 * 100) ∧
      u.completed / 100 = min (999/1000) ((4 : ℚ) / 10) ∧
      ∀ s, (StatusLine.mk (some 4) (some 2)).speed = some s → 1/100 < s →
        u.remaining = ((10 : ℚ) - 4) / s :=
  ⟨⟨by decide, by decide⟩,
    c9_progress_emission 10 4 ⟨some 4, some 2⟩ rfl (by decide) (by decide)⟩

/-- **C1** (confirmed).  For every size-targeted two-pass job whose first
attempt (both passes) succeeds and whose output file exists and is strictly
larger than the user's target, the controller performs exactly one retry:
the full trace consists of the first pass pair at margin 0.96
(`BITRATE_SAFETY`), one size verification, and one retry pass pair with the
tighter margin 0.90 into a fresh statistics directory (1 instead of 0) —
with no verification after the retry and no second retry: the trace contains
exactly one verification event and exactly four encoder invocations,
regardless of the retry's resulting size (which is never read). -/
theorem c1_single_retry (preset : EncPreset) (duration t : ℚ) (s : EncodeScript)
    (hcodec : preset.codec ≠ some "copy") (htar : preset.target_mb = some t)
    (ht0 : t ≠ 0) (hdur : 0 < duration)
    (hp1 : s.firstPass1 = .ok) (hp2 : s.firstPass2 = .ok)
    (hexists : s.outputExists = true) (hover : t < s.actualMb)
    (hr1 : s.retryPass1 = .ok) (hr2 : s.retryPass2 ≠ .exn) :
    encode_file preset duration s =
      ([.mkTempDir 0,
        .runPass 1 (target_video_kbps t duration (akbps_of preset) BITRATE_SAFETY) 0,
        .runPass 2 (target_video_kbps t duration (akbps_of preset) BITRATE_SAFETY) 0,
        .removeTempDir 0,
        .verifySize s.actualMb t,
        .mkTempDir 1,
        .runPass 1 (target_video_kbps t duration (akbps_of preset) (90/100)) 1,
        .runPass 2 (target_video_kbps t duration (akbps_of preset) (90/100)) 1,
        .removeTempDir 1], some true) ∧
    (encode_file preset duration s).1.countP (·.isVerify) = 1 ∧
    (encode_file preset duration s).1.countP (·.isEncoderRun) = 4 := by
  obtain ⟨codec, target, audio⟩ := preset
  obtain ⟨p1, p2, oe, amb, r1, r2⟩ := s
  dsimp only at htar hp1 hp2 hexists hover hr1 hr2 ⊢
  subst htar hp1 hp2 hexists hr1
  have hmain : encode_file ⟨codec, some t, audio⟩ duration
      ⟨.ok, .ok, true, amb, .ok, r2⟩ =
      ([.mkTempDir 0,
        .runPass 1 (target_video_kbps t duration
          (akbps_of ⟨codec, some t, audio⟩) BITRATE_SAFETY) 0,
        .runPass 2 (target_video_kbps t duration
          (akbps_of ⟨codec, some t, audio⟩) BITRATE_SAFETY) 0,
        .removeTempDir 0,
        .verifySize amb t,
        .mkTempDir 1,
        .runPass 1 (target_video_kbps t duration
          (akbps_of ⟨codec, some t, audio⟩) (90/100)) 1,
        .runPass 2 (target_video_kbps t duration
          (akbps_of ⟨codec, some t, audio⟩) (90/100)) 1,
        .removeTempDir 1], some true) := by
    rw [encode_file]
    dsimp only
    rw [if_neg hcodec, if_pos ⟨ht0, hdur⟩, if_pos rfl, if_pos hover]
    cases r2 with
    | ok => rfl
    | fail => rfl
    | exn => exact absurd rfl hr2
  refine ⟨hmain, ?_, ?_⟩ <;> rw [hmain] <;>
    simp [List.countP_cons, Event.isVerify, Event.isEncoderRun]

/-- Witness for `c1_single_retry`: scenario B — a 105 MB output against a
100 MB target over 600 s (codec libx264, audio 96 kbps), every pass
succeeding. -/
theorem c1_single_retry_witness :
    ((100 : ℚ) < 105 ∧ (0 : ℚ) < 600) ∧
    encode_file ⟨some "libx264", some 100, some 96⟩ 600
        ⟨.ok, .ok, true, 105, .ok, .ok⟩ =
      ([.mkTempDir 0,
        .runPass 1 (target_video_kbps 100 600
          (akbps_of ⟨some "libx264", some 100, some 96⟩) BITRATE_SAFETY) 0,
        .runPass 2 (target_video_kbps 100 600
          (akbps_of ⟨some "libx264", some 100, some 96⟩) BITRATE_SAFETY) 0,
        .removeTempDir 0,
        .verifySize 105 100,
        .mkTempDir 1,
        .runPass 1 (target_video_kbps 100 600
          (akbps_of ⟨some "libx264", some 100, some 96⟩) (90/100)) 1,
        .runPass 2 (target_video_kbps 100 600
          (akbps_of ⟨some "libx264", some 100, some 96⟩) (90/100)) 1,
        .removeTempDir 1], some true) :=
  ⟨⟨by decide, by decide⟩,
    (c1_single_retry ⟨some "libx264", some 100, some 96⟩ 600 100
      ⟨.ok, .ok, true, 105, .ok, .ok⟩ (by decide) rfl (by decide) (by decide)
      rfl rfl rfl (by decide) rfl (by decide)).1⟩

/-- **C3** (counterexample).  At `durationSeconds = 0` with a 100 MB size
target, the estimator does not report a sentinel: `target_video_kbps`
returns the plain number 805210 (duration clamped to 1 s), and the
controller still performs an encoder invocation — the job falls through to
the single-pass branch, whose trace is exactly one encoder run. -/
theorem c3_zero_duration_counterexample :
    target_video_kbps 100 0 96 = 805210 ∧
    (encode_file ⟨some "libx264", some 100, some 96⟩ 0
        ⟨.ok, .ok, true, 0, .ok, .ok⟩).1 = [.runSingle] ∧
    (encode_file ⟨some "libx264", some 100, some 96⟩ 0
        ⟨.ok, .ok, true, 0, .ok, .ok⟩).1.countP (·.isEncoderRun) = 1 := by
  refine ⟨?_, by decide, by decide⟩
  norm_num [target_video_kbps, pyInt, BITRATE_SAFETY]

/-- **C3** (amended).  For a size-targeted job with nonpositive duration,
the two-pass size-targeting path (and with it the bitrate estimation and
verification) is skipped entirely: the job becomes a plain single-pass
encode, so exactly one encoder invocation **does** occur, and the estimator
— which has no sentinel — is never consulted by the controller. -/
theorem c3_no_twopass_on_zero_duration (preset : EncPreset) (duration t : ℚ)
    (s : EncodeScript) (hcodec : preset.codec ≠ some "copy")
    (htar : preset.target_mb = some t) (hd : duration ≤ 0) :
    encode_file preset duration s =
      ([.runSingle], some (decide (s.firstPass1 = .ok))) ∧
    (encode_file preset duration s).1.countP (·.isEncoderRun) = 1 := by
  obtain ⟨codec, target, audio⟩ := preset
  dsimp only at htar hcodec ⊢
  subst htar
  have hmain : encode_file ⟨codec, some t, audio⟩ duration s =
      ([.runSingle], some (decide (s.firstPass1 = .ok))) := by
    rw [encode_file]
    dsimp only
    rw [if_neg hcodec, if_neg (fun hc => absurd hc.2 (not_lt.mpr hd))]
  exact ⟨hmain, by rw [hmain]; simp [List.countP_cons, Event.isEncoderRun]⟩

/-- Witness for `c3_no_twopass_on_zero_duration` at duration 0. -/
theorem c3_no_twopass_on_zero_duration_witness :
    ((0 : ℚ) ≤ 0) ∧
    (encode_file ⟨some "libx264", some 100, some 96⟩ 0
        ⟨.fail, .ok, true, 0, .ok, .ok⟩ =
      ([.runSingle], some (decide ((EncodeScript.mk .fail .ok true 0 .ok
        .ok).firstPass1 = .ok))) ∧
    (encode_file ⟨some "libx264", some 100, some 96⟩ 0
        ⟨.fail, .ok, true, 0, .ok, .ok⟩).1.countP (·.isEncoderRun) = 1) :=
  ⟨le_refl 0, c3_no_twopass_on_zero_duration ⟨some "libx264", some 100, some 96⟩
    0 100 ⟨.fail, .ok, true, 0, .ok, .ok⟩ (by decide) rfl (le_refl 0)⟩

/-- On every run of `encode_file`, either an exception escaped an encoder
invocation (result `none`), or every temporary statistics directory created
in the trace was also removed in the trace. -/
theorem encode_file_cleanup_or_exn (preset : EncPreset) (duration : ℚ)
    (s : EncodeScript) :
    (encode_file preset duration s).2 = none ∨
    ∀ id, Event.mkTempDir id ∈ (encode_file preset duration s).1 →
      Event.removeTempDir id ∈ (encode_file preset duration s).1 := by
  obtain ⟨codec, target, audio⟩ := preset
  obtain ⟨p1, p2, oe, amb, r1, r2⟩ := s
  by_cases hc : codec = some "copy"
  · right
    intro id h
    simp [encode_file, hc] at h
  · rcases target with _ | t
    · right
      intro id h
      simp [encode_file, hc] at h
    · by_cases hcond : t ≠ 0 ∧ duration > 0
      · cases p1 with
        | exn => left; simp [encode_file, hc, hcond]
        | fail =>
            right
            intro id h
            simp [encode_file, hc, hcond] at h ⊢
            simp [h]
        | ok =>
          cases p2 with
          | exn => left; simp [encode_file, hc, hcond]
          | fail =>
              right
              intro id h
              simp [encode_file, hc, hcond] at h ⊢
              simp [h]
          | ok =>
            cases oe with
            | false =>
                right
                intro id h
                simp [encode_file, hc, hcond] at h ⊢
                simp [h]
            | true =>
              by_cases hov : amb > t
              · cases r1 with
                | exn => left; simp [encode_file, hc, hcond, hov]
                | fail =>
                    right
                    intro id h
                    simp [encode_file, hc, hcond, hov] at h ⊢
                    rcases h with h | h <;> simp [h]
                | ok =>
                  cases r2 with
                  | exn => left; simp [encode_file, hc, hcond, hov]
                  | fail =>
                      right
                      intro id h
                      simp [encode_file, hc, hcond, hov] at h ⊢
                      rcases h with h | h <;> simp [h]
                  | ok =>
                      right
                      intro id h
                      simp [encode_file, hc, hcond, hov] at h ⊢
                      rcases h with h | h <;> simp [h]
              · right
                intro id h
                simp [encode_file, hc, hcond, hov] at h ⊢
                simp [h]
      · right
        intro id h
        simp [encode_file, hc, hcond] at h

/-- **C4** (counterexample).  When an exception escapes the first encoder
invocation (the `run_with_progress` call for pass 1), the temporary
statistics directory has been created but `shutil.rmtree` is never reached:
the cleanup is **not** on a `try/finally` path, so it is skipped on the
exception exit — refuting "removed on every exit path … including when an
exception is raised during the encoder invocation". -/
theorem c4_leak_on_exception_counterexample :
    Event.mkTempDir 0 ∈ (encode_file ⟨some "libx264", some 100, some 96⟩ 600
      ⟨.exn, .ok, true, 0, .ok, .ok⟩).1 ∧
    Event.removeTempDir 0 ∉ (encode_file ⟨some "libx264", some 100, some 96⟩ 600
      ⟨.exn, .ok, true, 0, .ok, .ok⟩).1 ∧
    (encode_file ⟨some "libx264", some 100, some 96⟩ 600
      ⟨.exn, .ok, true, 0, .ok, .ok⟩).2 = none := by
  refine ⟨?_, ?_, ?_⟩ <;> decide

/-- **C4** (amended).  On every **non-exceptional** exit path — success of
both passes, and encoder pass failure (nonzero exit) — every temporary
statistics directory created for a pass pair is removed; only when an
exception escapes an encoder invocation (a path on which the code has no
`try/finally`) can a directory leak. -/
theorem c4_cleanup_on_nonexceptional_paths (preset : EncPreset) (duration : ℚ)
    (s : EncodeScript) (b : Bool)
    (hres : (encode_file preset duration s).2 = some b) :
    ∀ id, Event.mkTempDir id ∈ (encode_file preset duration s).1 →
      Event.removeTempDir id ∈ (encode_file preset duration s).1 := by
  rcases encode_file_cleanup_or_exn preset duration s with h | h
  · rw [h] at hres
    exact Option.noConfusion hres
  · exact h

/-- Witness for `c4_cleanup_on_nonexceptional_paths`: pass 2 fails with a
nonzero exit (result `some false`); the first statistics directory is still
removed. -/
theorem c4_cleanup_on_nonexceptional_paths_witness :
    (encode_file ⟨some "libx264", some 100, some 96⟩ 600
      ⟨.ok, .fail, true, 0, .ok, .ok⟩).2 = some false ∧
    Event.removeTempDir 0 ∈ (encode_file ⟨some "libx264", some 100, some 96⟩ 600
      ⟨.ok, .fail, true, 0, .ok, .ok⟩).1 :=
  ⟨by decide, c4_cleanup_on_nonexceptional_paths
    ⟨some "libx264", some 100, some 96⟩ 600 ⟨.ok, .fail, true, 0, .ok, .ok⟩
    false (by decide) 0 (by decide)⟩

end FFToolbox
